import Mathlib

/-!
Verification of the sandcrawler scraper core (src/src/scraper.js) against its
specification.  The JavaScript source is shallowly embedded: middleware
functions are represented by the outcome they report to their callback
(`Option Err`, `none` meaning success), the per-job pipeline and the run
lifecycle are deterministic Lean functions producing event traces, and the
bounded-concurrency job queue is a small-step transition relation.
-/

namespace Sandcrawler

/-- Errors are opaque values in the source (passed verbatim to callbacks and
events); we embed them as strings. -/
abbrev Err := String

/-! ## Options and configuration

`scraper.js` reads `this.options.maxConcurrency || 1` when building the queue
(line 77); an absent or `0` (falsy) value therefore yields concurrency 1. -/

/-- Scraper options relevant to the embedded claims.  An `Option` field models
presence/absence of the JavaScript property. -/
structure Options where
  maxConcurrency : Option Nat := none
  timeout : Option Nat := none
deriving DecidableEq

/-- `this.options.maxConcurrency || 1` from the queue construction: a missing
or zero (falsy) value falls back to 1. -/
def effectiveConcurrency (o : Options) : Nat :=
  match o.maxConcurrency with
  | none => 1
  | some k => if k = 0 then 1 else k

/-- Modelled from the spec: `extend` lives in `helpers.js`, which is not part
of the provided sources.  The spec describes `configure(optionsPatch)` as
"merges into current options", the patch overriding the base where present. -/
def extend (patch base : Options) : Options :=
  { maxConcurrency :=
      match patch.maxConcurrency with
      | some v => some v
      | none => base.maxConcurrency
    timeout :=
      match patch.timeout with
      | some v => some v
      | none => base.timeout }

/-! ## Feeds and jobs (`createJob`, lines 99-133) -/

/-- An object feed: `url`, `data`, `params`, `timeout` properties, each
possibly absent. -/
structure FeedObj where
  url : Option String := none
  data : List (String × String) := []
  dataPresent : Bool := false
  params : List (String × String) := []
  paramsPresent : Bool := false
  timeout : Option Nat := none
deriving DecidableEq

/-- A feed is either a plain URL string or an object (line 115 dispatches on
`types.get(feed) === 'string'`). -/
inductive Feed
  | str (s : String)
  | obj (o : FeedObj)
deriving DecidableEq

/-- Mutable request state of a job (`job.req`). -/
structure Req where
  url : String := ""
  data : List (String × String) := []
  params : List (String × String) := []
  retries : Nat := 0
  timeout : Option Nat := none
deriving DecidableEq

/-- Mutable result state of a job (`job.res`): an optional error plus whatever
data the engine wrote. -/
structure Res where
  error : Option Err := none
  data : List (String × String) := []
deriving DecidableEq

/-- A job record as produced by `createJob` (the uuid-generated `id` is not
modelled; no claim depends on it). -/
structure Job where
  original : Feed
  state : List (String × String) := []
  req : Req := {}
  res : Res := {}
deriving DecidableEq

/-- JavaScript truthiness of `feed.url`: absent (`undefined`) and the empty
string are falsy (line 121 checks `!feed.url`). -/
def truthyUrl : Option String → Bool
  | none => false
  | some s => !(s == "")

/-- `createJob` (lines 99-133).  A string feed becomes the url; an object feed
must carry a truthy `url` or the function throws; `data`/`params` default to
empty mappings via `|| {}`; `timeout` is copied only when truthy
(`if (feed.timeout)`, line 128). -/
def createJob (feed : Feed) : Except String Job :=
  match feed with
  | .str s =>
      .ok { original := feed, req := { url := s } }
  | .obj o =>
      if truthyUrl o.url then
        .ok { original := feed
              req := { url := o.url.getD ""
                       data := if o.dataPresent then o.data else []
                       params := if o.paramsPresent then o.params else []
                       retries := 0
                       timeout :=
                         match o.timeout with
                         | some t => if t = 0 then none else some t
                         | none => none } }
      else
        .error "sandcrawler.scraper.url(s)/addUrl(s): no url provided."

/-- The job record built by `createJob`'s object branch (lines 102-130),
named so that it can serve as an existential witness. -/
def objJob (o : FeedObj) : Job :=
  { original := Feed.obj o
    req := { url := o.url.getD ""
             data := if o.dataPresent then o.data else []
             params := if o.paramsPresent then o.params else []
             retries := 0
             timeout :=
               match o.timeout with
               | some t => if t = 0 then none else some t
               | none => none } }

/-! ## Middleware series (`async.series` / `async.applyEachSeries`)

A middleware is embedded as the outcome it hands to its callback.  A series
invokes the functions in order and stops at the first error. -/

/-- First error reported by a middleware series run in order (`async.series`
on `this.middlewares.before`, line 170, and `async.applyEachSeries` inside the
per-job stages): `none` when every middleware succeeds. -/
def firstError : List (Option Err) → Option Err
  | [] => none
  | some e :: _ => some e
  | none :: rest => firstError rest

/-! ## The per-job three-stage pipeline (queue worker, lines 53-77) -/

/-- Invocation record of one pipeline stage for one job. -/
inductive StageEv
  | beforeScrapingMw (i : Nat)
  | fetchCall
  | afterScrapingMw (i : Nat)
deriving DecidableEq

/-- Behaviour of one job's pipeline stages: the outcomes of its
`beforeScraping` middlewares, of `engine.fetch`, and of its `afterScraping`
middlewares, plus the data the engine writes onto `job.res` when invoked. -/
structure JobScript where
  beforeS : List (Option Err) := []
  fetch : Option Err := none
  fetchRes : List (String × String) := []
  afterS : List (Option Err) := []
deriving DecidableEq

/-- Runs a middleware list in series starting at index `i`, recording which
middlewares were invoked (a failing middleware is itself invoked) and the
first error (`async.applyEachSeries`). -/
def seriesTrace (tag : Nat → StageEv) : List (Option Err) → Nat → List StageEv × Option Err
  | [], _ => ([], none)
  | some e :: _, i => ([tag i], some e)
  | none :: rest, i =>
      let t := seriesTrace tag rest (i + 1)
      (tag i :: t.1, t.2)

/-- The worker's `async.applyEachSeries([beforeScraping, scrape,
afterScraping], job, ...)` (lines 56-60): stages run in series, the first
error short-circuits, later stages are never invoked.  Returns the invocation
trace and the pipeline's error. -/
def runPipeline (js : JobScript) : List StageEv × Option Err :=
  let b := seriesTrace StageEv.beforeScrapingMw js.beforeS 0
  match b.2 with
  | some e => (b.1, some e)
  | none =>
      match js.fetch with
      | some e => (b.1 ++ [StageEv.fetchCall], some e)
      | none =>
          let a := seriesTrace StageEv.afterScrapingMw js.afterS 0
          (b.1 ++ StageEv.fetchCall :: a.1, a.2)

/-- The engine mutates `job.res` when (and only when) `engine.fetch` is
actually invoked (line 146). -/
def applyFetchRes (j : Job) (js : JobScript) : Job :=
  if StageEv.fetchCall ∈ (runPipeline js).1 then
    { j with res := { j.res with data := js.fetchRes } }
  else j

/-- The job as it stands when the worker's final callback fires: on a pipeline
error, `job.res.error = err` (line 63). -/
def workerFinal (j : Job) (js : JobScript) : Job :=
  match (runPipeline js).2 with
  | some e =>
      let j1 := applyFetchRes j js
      { j1 with res := { j1.res with error := some e } }
  | none => applyFetchRes j js

/-! ## Scraper events -/

/-- Events emitted on the scraper's event bus. -/
inductive Event
  | scraperStart
  | scraperFail (e : Err)
  | scraperSuccess
  | scraperEnd (status : String)
  | scraperTeardown
  | jobFail (e : Err) (j : Job)
  | jobSuccess (j : Job)
  | jobAdded
deriving DecidableEq

/-- The single job event the worker emits at the end of a job's pipeline
(lines 62-72): `job:fail` with the error and the mutated job, or
`job:success` with the job. -/
def workerEvent (j : Job) (js : JobScript) : Event :=
  match (runPipeline js).2 with
  | some e => Event.jobFail e (workerFinal j js)
  | none => Event.jobSuccess (workerFinal j js)

/-! ## The run lifecycle (`run`, lines 163-191; `fail`/`succeed`/`exit`/
`teardown`, lines 194-231)

The queue's drain condition — no pending jobs and no active workers — fires
the installed drain callback; job processing itself is collapsed to its
deterministic outcome (each pushed job contributes exactly one job event,
depending only on its own `JobScript`). -/

/-- Observable outcome of one `run(callback)` invocation. -/
structure RunResult where
  events : List Event
  callbackCalls : List (Option Err)
  queueResumed : Bool
  queueKilled : Bool
  listenersRemoved : Bool
  drainFires : Nat
  stageTraces : List (List StageEv)
  jobsStarted : Nat
deriving DecidableEq

/-- `Scraper.prototype.run`: emits `scraper:start`; runs the `before` series;
on error invokes the callback with it and fails the scraper (never resuming
the queue); otherwise installs the drain callback, resumes the queue, and on
drain invokes the callback with `null` and succeeds.  Failing emits
`scraper:fail` then `scraper:end("fail")`; succeeding emits `scraper:success`
then `scraper:end("success")`; both tear down (emit `scraper:teardown`, kill
the queue, remove all listeners). -/
def runScraper (before : List (Option Err)) (queue : List (Job × JobScript)) : RunResult :=
  match firstError before with
  | some e =>
      { events := [Event.scraperStart, Event.scraperFail e,
                   Event.scraperEnd "fail", Event.scraperTeardown]
        callbackCalls := [some e]
        queueResumed := false
        queueKilled := true
        listenersRemoved := true
        drainFires := 0
        stageTraces := []
        jobsStarted := 0 }
  | none =>
      { events := Event.scraperStart ::
          ((queue.map fun p => workerEvent p.1 p.2) ++
           [Event.scraperSuccess, Event.scraperEnd "success", Event.scraperTeardown])
        callbackCalls := [none]
        queueResumed := true
        queueKilled := true
        listenersRemoved := true
        drainFires := 1
        stageTraces := queue.map fun p => (runPipeline p.2).1
        jobsStarted := queue.length }

/-! ## The bounded-concurrency queue as a small-step system (`async.queue`,
lines 53-80)

The queue holds pending jobs and at most `concurrency` active workers; it
starts paused (line 80).  A free worker slot pulls the next pending job and
drives it through the three stages in order; each asynchronous callback
boundary is a separate step, so steps of distinct workers interleave
arbitrarily. -/

/-- The stage an active worker currently occupies, carrying the remainder of
its job's script. -/
inductive WStage
  | runningBeforeS (remaining : List (Option Err)) (fetch : Option Err) (afterS : List (Option Err))
  | fetching (fetch : Option Err) (afterS : List (Option Err))
  | runningAfterS (remaining : List (Option Err))
deriving DecidableEq

/-- An active worker: the id of the job it processes and its current stage. -/
structure QWorker where
  jobId : Nat
  stage : WStage
deriving DecidableEq

/-- A pending job in the queue. -/
structure QJob where
  id : Nat
  script : JobScript
deriving DecidableEq

/-- Queue state: the concurrency bound fixed at construction, the paused
flag, pending jobs in FIFO order, and the active workers. -/
structure QState where
  concurrency : Nat
  paused : Bool
  pending : List QJob
  active : List QWorker
deriving DecidableEq

/-- Position in the per-job stage order: `beforeScraping` (0), `fetch` (1),
`afterScraping` (2). -/
def stageIdx : WStage → Nat
  | .runningBeforeS _ _ _ => 0
  | .fetching _ _ => 1
  | .runningAfterS _ => 2

/-- Whether a worker currently has an `engine.fetch` call in flight. -/
def isFetching : WStage → Bool
  | .fetching _ _ => true
  | _ => false

/-- Number of `engine.fetch` invocations concurrently in flight. -/
def fetchInFlight (s : QState) : Nat :=
  (s.active.filter fun w => isFetching w.stage).length

/-- One scheduler step of the queue.  A worker is activated only while the
queue is unpaused and fewer than `concurrency` workers are active; an active
worker advances through its job's stages one callback at a time, an error at
any stage ending the job (later stages never run). -/
inductive QStep : QState → QState → Prop
  | resume (s : QState) :
      s.paused = true →
      QStep s { s with paused := false }
  | start (s : QState) (j : QJob) (rest : List QJob) :
      s.paused = false →
      s.pending = j :: rest →
      s.active.length < s.concurrency →
      QStep s { s with
        pending := rest
        active := s.active ++ [⟨j.id, .runningBeforeS j.script.beforeS j.script.fetch j.script.afterS⟩] }
  | mwOk (s : QState) (w : Nat) (rest : List (Option Err)) (f : Option Err)
      (a : List (Option Err)) (l r : List QWorker) :
      s.active = l ++ ⟨w, .runningBeforeS (none :: rest) f a⟩ :: r →
      QStep s { s with active := l ++ ⟨w, .runningBeforeS rest f a⟩ :: r }
  | mwErr (s : QState) (w : Nat) (e : Err) (rest : List (Option Err)) (f : Option Err)
      (a : List (Option Err)) (l r : List QWorker) :
      s.active = l ++ ⟨w, .runningBeforeS (some e :: rest) f a⟩ :: r →
      QStep s { s with active := l ++ r }
  | mwDone (s : QState) (w : Nat) (f : Option Err) (a : List (Option Err)) (l r : List QWorker) :
      s.active = l ++ ⟨w, .runningBeforeS [] f a⟩ :: r →
      QStep s { s with active := l ++ ⟨w, .fetching f a⟩ :: r }
  | fetchOk (s : QState) (w : Nat) (a : List (Option Err)) (l r : List QWorker) :
      s.active = l ++ ⟨w, .fetching none a⟩ :: r →
      QStep s { s with active := l ++ ⟨w, .runningAfterS a⟩ :: r }
  | fetchErr (s : QState) (w : Nat) (e : Err) (a : List (Option Err)) (l r : List QWorker) :
      s.active = l ++ ⟨w, .fetching (some e) a⟩ :: r →
      QStep s { s with active := l ++ r }
  | aOk (s : QState) (w : Nat) (rest : List (Option Err)) (l r : List QWorker) :
      s.active = l ++ ⟨w, .runningAfterS (none :: rest)⟩ :: r →
      QStep s { s with active := l ++ ⟨w, .runningAfterS rest⟩ :: r }
  | aErr (s : QState) (w : Nat) (e : Err) (rest : List (Option Err)) (l r : List QWorker) :
      s.active = l ++ ⟨w, .runningAfterS (some e :: rest)⟩ :: r →
      QStep s { s with active := l ++ r }
  | aDone (s : QState) (w : Nat) (l r : List QWorker) :
      s.active = l ++ ⟨w, .runningAfterS []⟩ :: r →
      QStep s { s with active := l ++ r }

/-- States reachable from an initial queue state. -/
inductive Reach (init : QState) : QState → Prop
  | refl : Reach init init
  | step {s t : QState} : Reach init s → QStep s t → Reach init t

/-- The initial state of a scraper's queue: paused, no active worker. -/
def initQueue (c : Nat) (pending : List QJob) : QState :=
  { concurrency := c, paused := true, pending := pending, active := [] }

/-- How one step may change the active-worker list: unchanged, a fresh worker
appended at the first stage, one worker's stage advanced (never backward), or
one worker removed. -/
def workerEvolution (s t : QState) : Prop :=
  t.active = s.active
  ∨ (∃ w : QWorker, t.active = s.active ++ [w] ∧ stageIdx w.stage = 0)
  ∨ (∃ l : List QWorker, ∃ w : Nat, ∃ σ σ' : WStage, ∃ r : List QWorker,
      s.active = l ++ ⟨w, σ⟩ :: r ∧ t.active = l ++ ⟨w, σ'⟩ :: r ∧ stageIdx σ ≤ stageIdx σ')
  ∨ (∃ l : List QWorker, ∃ w : Nat, ∃ σ : WStage, ∃ r : List QWorker,
      s.active = l ++ ⟨w, σ⟩ :: r ∧ t.active = l ++ r)

/-! ## Module-level state: shared defaults and per-instance options

The constructor executes `this.options = defaults` (line 38): every instance
aliases the single module-level defaults object until it calls `config`,
which replaces `this.options` with a freshly built merge (line 331).
`timeout(t)` mutates `this.options` in place (line 341). -/

/-- A reference to an options object: the shared module-level defaults, or a
private object produced by `config`. -/
inductive OptRef
  | defaultsRef
  | own (n : Nat)
deriving DecidableEq

/-- The per-instance state relevant here: which options object the instance
references and the queue's worker bound fixed at construction. -/
structure ScraperObj where
  ref : OptRef
  queueConcurrency : Nat
deriving DecidableEq

/-- The module's heap: the shared defaults object, privately owned options
objects, and the constructed scraper instances. -/
structure ModuleState where
  defaults : Options
  cells : List (Nat × Options)
  nextCell : Nat
  scrapers : List (Nat × ScraperObj)
  nextScraper : Nat
deriving DecidableEq

/-- Fresh module state with the given defaults object. -/
def initModule (d : Options) : ModuleState :=
  { defaults := d, cells := [], nextCell := 0, scrapers := [], nextScraper := 0 }

/-- Dereference an options reference. -/
def lookupCell (m : ModuleState) : OptRef → Options
  | .defaultsRef => m.defaults
  | .own n => ((m.cells.find? fun c => c.1 == n).map Prod.snd).getD {}

/-- The constructor (lines 23-89): `this.options = defaults` aliases the
shared object, and the queue is built with `this.options.maxConcurrency || 1`
workers at that moment. -/
def newScraper (m : ModuleState) : ModuleState × Nat :=
  let sid := m.nextScraper
  let obj : ScraperObj := ⟨.defaultsRef, effectiveConcurrency m.defaults⟩
  ({ m with scrapers := m.scrapers ++ [(sid, obj)], nextScraper := sid + 1 }, sid)

/-- Look up a constructed scraper instance. -/
def getScraper (m : ModuleState) (sid : Nat) : Option ScraperObj :=
  (m.scrapers.find? fun p => p.1 == sid).map Prod.snd

/-- The options object a scraper currently sees (`this.options`). -/
def scraperOptions (m : ModuleState) (sid : Nat) : Options :=
  match getScraper m sid with
  | some o => lookupCell m o.ref
  | none => {}

/-- `Scraper.prototype.timeout` (lines 336-344): `this.options.timeout = t`
mutates the referenced options object in place. -/
def setTimeoutOp (m : ModuleState) (sid : Nat) (t : Nat) : ModuleState :=
  match getScraper m sid with
  | none => m
  | some o =>
      match o.ref with
      | .defaultsRef => { m with defaults := { m.defaults with timeout := some t } }
      | .own n =>
          { m with cells := m.cells.map fun c =>
              if c.1 == n then (c.1, { c.2 with timeout := some t }) else c }

/-- `Scraper.prototype.config` (lines 326-333): `this.options =
extend(o, this.options)` builds a fresh merged object and repoints the
instance at it; the queue is not touched. -/
def configOp (m : ModuleState) (sid : Nat) (patch : Options) : ModuleState :=
  match getScraper m sid with
  | none => m
  | some o =>
      let newOpts := extend patch (lookupCell m o.ref)
      let n := m.nextCell
      { m with
        cells := m.cells ++ [(n, newOpts)]
        nextCell := n + 1
        scrapers := m.scrapers.map fun p =>
          if p.1 == sid then (p.1, { p.2 with ref := OptRef.own n }) else p }

/-! ## Helper lemmas -/

/-- A middleware series whose prefix succeeds and whose next middleware errors
invokes exactly the middlewares up to and including the failing one, in order,
and reports that error. -/
theorem seriesTrace_first_err (tag : Nat → StageEv) (e : Err) (post : List (Option Err))
    (pre : List (Option Err)) (i : Nat) (h : ∀ x ∈ pre, x = none) :
    seriesTrace tag (pre ++ some e :: post) i =
      ((List.range' i (pre.length + 1)).map tag, some e) := by
  induction pre generalizing i with
  | nil => simp [seriesTrace, List.range'_one]
  | cons x pre ih =>
      have hx : x = none := h x (by simp)
      subst hx
      simp only [List.cons_append, seriesTrace, List.append_eq]
      rw [ih (i + 1) (fun y hy => h y (by simp [hy]))]
      simp [List.range'_succ]

/-- Shape of the event trace of a run whose `before` middlewares all
succeed. -/
theorem runScraper_events_ok (before : List (Option Err)) (queue : List (Job × JobScript))
    (h : firstError before = none) :
    (runScraper before queue).events =
      Event.scraperStart ::
        ((queue.map fun p => workerEvent p.1 p.2) ++
         [Event.scraperSuccess, Event.scraperEnd "success", Event.scraperTeardown]) := by
  simp [runScraper, h]

/-- On an object feed with a truthy url, `createJob` succeeds with the
object-branch job record. -/
theorem createJob_obj (o : FeedObj) (ht : truthyUrl o.url = true) :
    createJob (Feed.obj o) = Except.ok (objJob o) := by
  simp [createJob, ht, objJob]

/-- `applyFetchRes` never touches `res.error`. -/
theorem applyFetchRes_error (j : Job) (js : JobScript) :
    (applyFetchRes j js).res.error = j.res.error := by
  unfold applyFetchRes
  split <;> rfl

/-! ## Claims -/

/-- C1: if any `before` (scraper-start) middleware reports an error during
`run(onComplete)`, zero jobs are ever started and the queue is never resumed;
the scraper emits `scraper:fail` with that error, then `scraper:end` with
status "fail", invokes `onComplete` with that error, and tears down (queue
killed, all listeners removed). -/
theorem claim_C1 (before : List (Option Err)) (queue : List (Job × JobScript)) (e : Err)
    (h : firstError before = some e) :
    (runScraper before queue).jobsStarted = 0
    ∧ (runScraper before queue).stageTraces = []
    ∧ (runScraper before queue).queueResumed = false
    ∧ (runScraper before queue).events =
        [Event.scraperStart, Event.scraperFail e, Event.scraperEnd "fail", Event.scraperTeardown]
    ∧ (runScraper before queue).callbackCalls = [some e]
    ∧ (runScraper before queue).queueKilled = true
    ∧ (runScraper before queue).listenersRemoved = true := by
  simp [runScraper, h]

/-- Witness for C1 at a concrete failing `before` middleware. -/
theorem claim_C1_witness :
    (runScraper [some "boom"] []).jobsStarted = 0
    ∧ (runScraper [some "boom"] []).events =
        [Event.scraperStart, Event.scraperFail "boom",
         Event.scraperEnd "fail", Event.scraperTeardown] :=
  ⟨(claim_C1 [some "boom"] [] "boom" rfl).1,
   (claim_C1 [some "boom"] [] "boom" rfl).2.2.2.1⟩

/-- C2: when the `before` middlewares succeed, each job contributes exactly
one job event determined by its own pipeline alone; a job whose pipeline
errors has the error stored on `job.res.error` and emitted via `job:fail`
with the job, a job whose pipeline succeeds is emitted via `job:success` with
its `res.error` untouched; the scraper still emits `scraper:success` and the
`run` callback receives no error. -/
theorem claim_C2 (before : List (Option Err)) (queue : List (Job × JobScript))
    (h : firstError before = none) :
    (runScraper before queue).events =
      Event.scraperStart ::
        ((queue.map fun p => workerEvent p.1 p.2) ++
         [Event.scraperSuccess, Event.scraperEnd "success", Event.scraperTeardown])
    ∧ (∀ (j : Job) (js : JobScript) (e : Err), (runPipeline js).2 = some e →
        workerEvent j js = Event.jobFail e (workerFinal j js)
        ∧ (workerFinal j js).res.error = some e)
    ∧ (∀ (j : Job) (js : JobScript), (runPipeline js).2 = none →
        workerEvent j js = Event.jobSuccess (workerFinal j js)
        ∧ (workerFinal j js).res.error = j.res.error)
    ∧ (runScraper before queue).callbackCalls = [none]
    ∧ Event.scraperSuccess ∈ (runScraper before queue).events := by
  refine ⟨runScraper_events_ok before queue h, ?_, ?_, ?_, ?_⟩
  · intro j js e he
    constructor
    · simp [workerEvent, he]
    · simp [workerFinal, he]
  · intro j js he
    constructor
    · simp [workerEvent, he]
    · simp [workerFinal, he, applyFetchRes_error]
  · simp [runScraper, h]
  · rw [runScraper_events_ok before queue h]
    simp

/-- Witness for C2: empty `before` list, one job whose engine fails. -/
theorem claim_C2_witness :
    (runScraper [] [({ original := Feed.str "http://b", req := { url := "http://b" } },
                     { fetch := some "engine-error" })]).callbackCalls = [none]
    ∧ workerEvent { original := Feed.str "http://b", req := { url := "http://b" } }
        { fetch := some "engine-error" }
      = Event.jobFail "engine-error"
          (workerFinal { original := Feed.str "http://b", req := { url := "http://b" } }
            { fetch := some "engine-error" }) :=
  ⟨(claim_C2 []
      [({ original := Feed.str "http://b", req := { url := "http://b" } },
        { fetch := some "engine-error" })] rfl).2.2.2.1,
   ((claim_C2 []
      [({ original := Feed.str "http://b", req := { url := "http://b" } },
        { fetch := some "engine-error" })] rfl).2.1
      { original := Feed.str "http://b", req := { url := "http://b" } }
      { fetch := some "engine-error" } "engine-error" rfl).1⟩

/-- C4 counterexample: in a run whose `before` middleware fails, the queue is
never resumed and the drain callback fires zero times, not once — yet the
completion callback still fires exactly once with the error. -/
theorem claim_C4_counterexample :
    (runScraper [some "boom"] []).drainFires = 0
    ∧ (runScraper [some "boom"] []).callbackCalls = [some "boom"] := by
  exact ⟨rfl, rfl⟩

/-- C4 (amended): for every invocation of `run(onComplete)` and any number of
pushed jobs (including zero), `onComplete` fires exactly once, with an error
set exactly when the `before` middleware series failed; the drain callback
triggers exactly once in a run whose `before` middlewares succeed, and never
in a run aborted by a `before` failure (the queue is never resumed there). -/
theorem claim_C4 (before : List (Option Err)) (queue : List (Job × JobScript)) :
    (runScraper before queue).callbackCalls = [firstError before]
    ∧ (runScraper before queue).callbackCalls.length = 1
    ∧ (firstError before = none →
        (runScraper before queue).drainFires = 1
        ∧ (runScraper before queue).queueResumed = true)
    ∧ (∀ e : Err, firstError before = some e →
        (runScraper before queue).drainFires = 0
        ∧ (runScraper before queue).queueResumed = false) := by
  cases h : firstError before <;> simp [runScraper, h]

/-- Witness for C4: an empty run drains once and calls back once with no
error. -/
theorem claim_C4_witness :
    (runScraper [] []).callbackCalls = [firstError []]
    ∧ (runScraper [] []).drainFires = 1 :=
  ⟨(claim_C4 [] []).1, ((claim_C4 [] []).2.2.1 rfl).1⟩

/-- C3: if some `beforeScraping` middleware reports an error for a job,
`engine.fetch` is never invoked for that job, no `afterScraping` middleware
runs for it, earlier-listed `beforeScraping` middlewares ran in order and
later ones never, and `job:fail` is emitted carrying exactly that error and
that job. -/
theorem claim_C3 (before : List (Option Err)) (queue : List (Job × JobScript))
    (j : Job) (js : JobScript) (pre post : List (Option Err)) (e : Err)
    (hb : js.beforeS = pre ++ some e :: post) (hpre : ∀ x ∈ pre, x = none) :
    (runPipeline js).1 = (List.range (pre.length + 1)).map StageEv.beforeScrapingMw
    ∧ StageEv.fetchCall ∉ (runPipeline js).1
    ∧ (∀ i : Nat, StageEv.afterScrapingMw i ∉ (runPipeline js).1)
    ∧ (runPipeline js).2 = some e
    ∧ workerEvent j js = Event.jobFail e { j with res := { j.res with error := some e } }
    ∧ (firstError before = none → (j, js) ∈ queue →
        Event.jobFail e { j with res := { j.res with error := some e } }
          ∈ (runScraper before queue).events) := by
  have hst : seriesTrace StageEv.beforeScrapingMw js.beforeS 0 =
      ((List.range' 0 (pre.length + 1)).map StageEv.beforeScrapingMw, some e) := by
    rw [hb]
    exact seriesTrace_first_err StageEv.beforeScrapingMw e post pre 0 hpre
  have h1 : runPipeline js =
      ((List.range (pre.length + 1)).map StageEv.beforeScrapingMw, some e) := by
    simp [runPipeline, hst, List.range_eq_range']
  have hnofetch : StageEv.fetchCall ∉ (runPipeline js).1 := by
    rw [h1]
    simp
  have hevent : workerEvent j js =
      Event.jobFail e { j with res := { j.res with error := some e } } := by
    have hfinal : workerFinal j js = { j with res := { j.res with error := some e } } := by
      simp [workerFinal, h1, applyFetchRes, hnofetch]
    simp [workerEvent, h1, hfinal]
  refine ⟨by rw [h1], hnofetch, ?_, by rw [h1], hevent, ?_⟩
  · intro i
    rw [h1]
    simp
  · intro h0 hmem
    rw [runScraper_events_ok before queue h0]
    refine List.mem_cons_of_mem _ (List.mem_append_left _ ?_)
    have hm : workerEvent j js ∈ queue.map fun p => workerEvent p.1 p.2 :=
      List.mem_map_of_mem _ hmem
    rw [hevent] at hm
    exact hm

/-- Witness for C3: one succeeding then one failing `beforeScraping`
middleware. -/
theorem claim_C3_witness :
    StageEv.fetchCall ∉ (runPipeline { beforeS := [none, some "mw-error"] }).1
    ∧ (runPipeline { beforeS := [none, some "mw-error"] }).2 = some "mw-error" :=
  ⟨(claim_C3 [] [] { original := Feed.str "http://a", req := { url := "http://a" } }
      { beforeS := [none, some "mw-error"] } [none] [] "mw-error" rfl
      (by intro x hx; simpa using hx)).2.1,
   (claim_C3 [] [] { original := Feed.str "http://a", req := { url := "http://a" } }
      { beforeS := [none, some "mw-error"] } [none] [] "mw-error" rfl
      (by intro x hx; simpa using hx)).2.2.2.1⟩

/-- C6: a valid feed — a string, or an object with a (truthy) url — yields a
job whose `req.url` is the string or the object's url, whose `req.data` and
`req.params` are the feed's values or empty mappings when absent, with
`req.retries = 0` and empty `res` and `state`. -/
theorem claim_C6 :
    (∀ s : String, createJob (Feed.str s) =
      Except.ok { original := Feed.str s, state := [],
                  req := { url := s, data := [], params := [], retries := 0, timeout := none },
                  res := {} })
    ∧ (∀ (o : FeedObj) (u : String), o.url = some u → u ≠ "" →
        ∃ jb : Job, createJob (Feed.obj o) = Except.ok jb
          ∧ jb.original = Feed.obj o
          ∧ jb.req.url = u
          ∧ jb.req.data = (if o.dataPresent then o.data else [])
          ∧ jb.req.params = (if o.paramsPresent then o.params else [])
          ∧ jb.req.retries = 0
          ∧ jb.res = {}
          ∧ jb.state = []) := by
  constructor
  · intro s
    rfl
  · intro o u hu hne
    have ht : truthyUrl o.url = true := by
      rw [hu]
      simp [truthyUrl, hne]
    refine ⟨objJob o, createJob_obj o ht, rfl, ?_, rfl, rfl, rfl, rfl, rfl⟩
    simp [objJob, hu]

/-- Witness for C6 at a concrete object feed. -/
theorem claim_C6_witness :
    createJob (Feed.str "http://a") =
      Except.ok { original := Feed.str "http://a", state := [],
                  req := { url := "http://a", data := [], params := [],
                           retries := 0, timeout := none },
                  res := {} }
    ∧ ∃ jb : Job,
        createJob (Feed.obj { url := some "http://b" }) = Except.ok jb
        ∧ jb.req.url = "http://b" :=
  ⟨claim_C6.1 "http://a",
   match claim_C6.2 { url := some "http://b" } "http://b" rfl (by decide) with
   | ⟨jb, h1, _, h3, _⟩ => ⟨jb, h1, h3⟩⟩

/-- C7: an object feed with no url property fails with the configuration
error stating that no url was provided; no job is produced. -/
theorem claim_C7 (o : FeedObj) (h : o.url = none) :
    createJob (Feed.obj o) =
      Except.error "sandcrawler.scraper.url(s)/addUrl(s): no url provided." := by
  simp [createJob, truthyUrl, h]

/-- Witness for C7 at the empty object feed. -/
theorem claim_C7_witness :
    createJob (Feed.obj {}) =
      Except.error "sandcrawler.scraper.url(s)/addUrl(s): no url provided." :=
  claim_C7 {} rfl

/-- C8 counterexample: a feed with `timeout: 0` present does NOT get its
timeout copied — `if (feed.timeout)` is a truthiness test, so the job's
`req.timeout` is left unset. -/
theorem claim_C8_counterexample :
    (createJob (Feed.obj { url := some "http://a", timeout := some 0 })).map
      (fun jb => jb.req.timeout) = Except.ok none := by
  rfl

/-- C8 (amended): for every object feed, `createJob` copies the feed's
`timeout` onto `job.req.timeout` only when the `timeout` property is present
and truthy (nonzero); when it is absent — or present but falsy, such as 0 —
`job.req.timeout` is left unset. -/
theorem claim_C8 (o : FeedObj) (u : String) (hu : o.url = some u) (hne : u ≠ "") :
    (∀ t : Nat, o.timeout = some t → t ≠ 0 →
      ∃ jb : Job, createJob (Feed.obj o) = Except.ok jb ∧ jb.req.timeout = some t)
    ∧ (o.timeout = some 0 →
      ∃ jb : Job, createJob (Feed.obj o) = Except.ok jb ∧ jb.req.timeout = none)
    ∧ (o.timeout = none →
      ∃ jb : Job, createJob (Feed.obj o) = Except.ok jb ∧ jb.req.timeout = none) := by
  have ht : truthyUrl o.url = true := by
    rw [hu]
    simp [truthyUrl, hne]
  refine ⟨?_, ?_, ?_⟩
  · intro t hts htz
    exact ⟨objJob o, createJob_obj o ht, by simp [objJob, hts, htz]⟩
  · intro hts
    exact ⟨objJob o, createJob_obj o ht, by simp [objJob, hts]⟩
  · intro hts
    exact ⟨objJob o, createJob_obj o ht, by simp [objJob, hts]⟩

/-- Witness for C8: nonzero timeout copied, zero timeout dropped, absent
timeout left unset. -/
theorem claim_C8_witness :
    (∃ jb : Job,
      createJob (Feed.obj { url := some "http://a", timeout := some 5000 }) = Except.ok jb
      ∧ jb.req.timeout = some 5000)
    ∧ (∃ jb : Job,
      createJob (Feed.obj { url := some "http://a", timeout := some 0 }) = Except.ok jb
      ∧ jb.req.timeout = none)
    ∧ (∃ jb : Job,
      createJob (Feed.obj { url := some "http://a" }) = Except.ok jb
      ∧ jb.req.timeout = none) :=
  ⟨(claim_C8 { url := some "http://a", timeout := some 5000 } "http://a" rfl
      (by decide)).1 5000 rfl (by decide),
   (claim_C8 { url := some "http://a", timeout := some 0 } "http://a" rfl
      (by decide)).2.1 rfl,
   (claim_C8 { url := some "http://a" } "http://a" rfl (by decide)).2.2 rfl⟩

/-- Every queue step preserves the concurrency bound fixed at
construction. -/
theorem qstep_concurrency {s t : QState} (h : QStep s t) : t.concurrency = s.concurrency := by
  cases h <;> rfl

/-- Every queue step preserves the invariant that at most `concurrency`
workers are active. -/
theorem qstep_active_le {s t : QState} (h : QStep s t)
    (hs : s.active.length ≤ s.concurrency) : t.active.length ≤ t.concurrency := by
  cases h <;> simp_all [List.length_append] <;> omega

/-- In every reachable state of a queue started with no active worker, the
concurrency bound is unchanged and at most that many workers are active. -/
theorem reach_inv {init s : QState} (h0 : init.active = []) (h : Reach init s) :
    s.concurrency = init.concurrency ∧ s.active.length ≤ s.concurrency := by
  induction h with
  | refl => simp [h0]
  | step hr hstep ih => exact ⟨(qstep_concurrency hstep).trans ih.1, qstep_active_le hstep ih.2⟩

/-- C5: in every state reachable from a scraper's initial queue, at most
`concurrency` engine `fetch` calls are concurrently in flight (so with
concurrency 1 no two fetches overlap in time); each scheduler step starts a
worker at the `beforeScraping` stage, advances one worker's stage forward
only (`beforeScraping`, then `fetch`, then `afterScraping` — a worker holds
exactly one stage at a time), or retires a worker; and an unconfigured
`maxConcurrency` yields the default bound 1. -/
theorem claim_C5 :
    (∀ (c : Nat) (pending : List QJob) (s : QState),
       Reach (initQueue c pending) s → fetchInFlight s ≤ c)
    ∧ (∀ (pending : List QJob) (s : QState),
       Reach (initQueue 1 pending) s → fetchInFlight s ≤ 1)
    ∧ (∀ s t : QState, QStep s t → workerEvolution s t)
    ∧ effectiveConcurrency {} = 1 := by
  have hbound : ∀ (c : Nat) (pending : List QJob) (s : QState),
      Reach (initQueue c pending) s → fetchInFlight s ≤ c := by
    intro c pending s h
    have hi := reach_inv rfl h
    calc fetchInFlight s ≤ s.active.length := List.length_filter_le _ _
    _ ≤ s.concurrency := hi.2
    _ = c := hi.1
  refine ⟨hbound, fun pending s h => hbound 1 pending s h, ?_, rfl⟩
  intro s t h
  cases h with
  | resume hp => exact Or.inl rfl
  | start j rest hp hq hc => exact Or.inr (Or.inl ⟨_, rfl, rfl⟩)
  | mwOk w rest f a l r hA =>
      exact Or.inr (Or.inr (Or.inl ⟨l, w, _, _, r, hA, rfl, Nat.le_refl _⟩))
  | mwErr w e rest f a l r hA =>
      exact Or.inr (Or.inr (Or.inr ⟨l, w, _, r, hA, rfl⟩))
  | mwDone w f a l r hA =>
      exact Or.inr (Or.inr (Or.inl ⟨l, w, _, _, r, hA, rfl, Nat.zero_le _⟩))
  | fetchOk w a l r hA =>
      exact Or.inr (Or.inr (Or.inl ⟨l, w, _, _, r, hA, rfl, Nat.le_succ _⟩))
  | fetchErr w e a l r hA =>
      exact Or.inr (Or.inr (Or.inr ⟨l, w, _, r, hA, rfl⟩))
  | aOk w rest l r hA =>
      exact Or.inr (Or.inr (Or.inl ⟨l, w, _, _, r, hA, rfl, Nat.le_refl _⟩))
  | aErr w e rest l r hA =>
      exact Or.inr (Or.inr (Or.inr ⟨l, w, _, r, hA, rfl⟩))
  | aDone w l r hA =>
      exact Or.inr (Or.inr (Or.inr ⟨l, w, _, r, hA, rfl⟩))

/-- Witness for C5 at concrete queue states. -/
theorem claim_C5_witness :
    fetchInFlight (initQueue 2 []) ≤ 2
    ∧ fetchInFlight (initQueue 1 []) ≤ 1
    ∧ workerEvolution (initQueue 1 []) { initQueue 1 [] with paused := false } :=
  ⟨claim_C5.1 2 [] _ Reach.refl,
   claim_C5.2.1 [] _ Reach.refl,
   claim_C5.2.2.1 _ _ (QStep.resume _ rfl)⟩

/-- C9: the queue's worker bound is fixed at construction to
`this.options.maxConcurrency` at that moment (1 when falsy); a later
`config({maxConcurrency: k})` replaces `this.options` — the new options do
carry `maxConcurrency = k` — but leaves the queue's effective concurrency
bound unchanged. -/
theorem claim_C9 (d : Options) (k : Nat) :
    let m1 := (newScraper (initModule d)).1
    let sid := (newScraper (initModule d)).2
    let m2 := configOp m1 sid { maxConcurrency := some k }
    (getScraper m1 sid).map ScraperObj.queueConcurrency = some (effectiveConcurrency d)
    ∧ (getScraper m2 sid).map ScraperObj.queueConcurrency = some (effectiveConcurrency d)
    ∧ (scraperOptions m2 sid).maxConcurrency = some k
    ∧ effectiveConcurrency { maxConcurrency := none, timeout := d.timeout } = 1
    ∧ effectiveConcurrency { maxConcurrency := some 0, timeout := d.timeout } = 1 := by
  intro m1 sid m2
  exact ⟨rfl, rfl, rfl, rfl, rfl⟩

/-- C10: the constructor assigns the shared module-level defaults object
itself to `this.options` without copying, so with two instances that never
called `config`, `timeout(t)` on the first is observable on the second's
options and on every instance constructed afterwards. -/
theorem claim_C10 (d : Options) (t : Nat) :
    let m2 := (newScraper (newScraper (initModule d)).1).1
    let m3 := setTimeoutOp m2 0 t
    (getScraper m2 0).map ScraperObj.ref = some OptRef.defaultsRef
    ∧ (getScraper m2 1).map ScraperObj.ref = some OptRef.defaultsRef
    ∧ (scraperOptions m3 0).timeout = some t
    ∧ (scraperOptions m3 1).timeout = some t
    ∧ (scraperOptions (newScraper m3).1 2).timeout = some t := by
  intro m2 m3
  exact ⟨rfl, rfl, rfl, rfl, rfl⟩

end Sandcrawler
